import Mathlib

/-!
Shallow embedding of the request-builder core of `doapi-rs`
(`src/request/builder/dns.rs` and `src/response/account.rs`).

Modelling conventions:
* `hyper::method::Method` becomes the inductive `Method` below.
* Serialized JSON bodies (`Option<String>` in the source, filled by
  `serde::json::to_string`) are modelled by the JSON value they encode:
  a flat association list of key/`Json` pairs, since every field of
  `DnsRecord` serializes to a string, a number or null.
* The phantom response-type parameter `resp_t : PhantomData<T>` of
  `RequestBuilder<T>` is modelled as a type index `resp : RespShape`
  of the structure `RequestBuilder`; it carries no runtime data.
* The borrowed auth token `&str` is modelled as a `String`.
* A Rust panic (`Option::unwrap` on `None`) is modelled by returning
  `none` from an `Option`-valued function.
* `f64` (only used for `Account.droplet_limit`) is modelled as `ℚ`;
  the one value the spec exercises, `25.0`, is exactly representable.
-/

namespace Doapi

/-- HTTP methods, after `hyper::method::Method` (hyper 0.x). -/
inductive Method where
  | Options
  | Get
  | Post
  | Put
  | Delete
  | Head
  | Trace
  | Connect
  | Patch
  | Extension (s : String)
deriving DecidableEq

/-- A scalar JSON value as produced for the fields of `DnsRecord` by
`serde::json`: null, a string, or an unsigned number (`u64`, modelled as
`Nat`; the values are small). -/
inductive Json where
  | null
  | str (s : String)
  | num (n : Nat)
deriving DecidableEq

/-- A JSON object: ordered key/value pairs, as serde emits the fields of a
`#[derive(Serialize)]` struct in declaration order. -/
abbrev Jobj := List (String × Json)

/-- `DnsRecType` from `src/request/builder/dns.rs` lines 12-23: the closed
enumeration of supported DNS record types. -/
inductive DnsRecType where
  | A
  | AAAA
  | CNAME
  | MX
  | NS
  | SRV
  | TXT
deriving DecidableEq

/-- Modelled from the spec: the `doapi_enum!` macro that wraps `DnsRecType`
is repository code not present under `src/`; per the spec it derives a
`Display` implementation whose textual form "equals the uppercase tag name
exactly", identical to the wire representation. -/
def DnsRecType.display : DnsRecType → String
  | .A => "A"
  | .AAAA => "AAAA"
  | .CNAME => "CNAME"
  | .MX => "MX"
  | .NS => "NS"
  | .SRV => "SRV"
  | .TXT => "TXT"

/-- `DnsRecord` from `src/request/builder/dns.rs` lines 32-50, fields in
declaration order. `rec_type` is serialized under the key `"type"` via
`#[serde(rename = "type")]`. -/
structure DnsRecord where
  rec_type : String
  name : Option String
  priority : Option Nat
  port : Option Nat
  data : Option String
  weight : Option Nat
deriving DecidableEq

/-- serde serialization of an `Option<String>` field: `None` becomes JSON
null, `Some(s)` the string `s`. -/
def jsonOptStr : Option String → Json
  | some s => .str s
  | none => .null

/-- serde serialization of an `Option<u64>` field: `None` becomes JSON
null, `Some(n)` the number `n`. -/
def jsonOptNum : Option Nat → Json
  | some n => .num n
  | none => .null

/-- The JSON object a `DnsRecord` serializes to under
`#[derive(Serialize)]` with `#[serde(rename = "type")]` on `rec_type`:
fields in declaration order, `rec_type` under key `"type"`. -/
def DnsRecord.jsonEncode (r : DnsRecord) : Jobj :=
  [("type", .str r.rec_type),
   ("name", jsonOptStr r.name),
   ("priority", jsonOptNum r.priority),
   ("port", jsonOptNum r.port),
   ("data", jsonOptStr r.data),
   ("weight", jsonOptNum r.weight)]

/-- `serde::json::to_string(record).ok()`: the derived serializer for
`DnsRecord` (strings, numbers and null only) always succeeds, so the
`Option` result is always `some` of the encoded object. -/
def json.to_string (r : DnsRecord) : Option Jobj :=
  some r.jsonEncode

/-- `if let Some(x) = o \x7b x \x7d else \x7b "None".to_owned() \x7d` for the
string fields of the `Display` impl of `DnsRecord` (lines 62-71). -/
def displayOptStr : Option String → String
  | some s => s
  | none => "None"

/-- The same `if let` branch for the `u64` fields (lines 72-86):
`Some(n)` renders via `to_string()`, `None` as the literal `"None"`. -/
def displayOptNum : Option Nat → String
  | some n => toString n
  | none => "None"

/-- `impl fmt::Display for DnsRecord` (lines 52-89): the six-line report
`"Record Type: {}\nName: {}\nData: {}\nPriority: {}\nPort: {}\nWeight: {}\n"`
with the field values (or `"None"`) interpolated in that order. -/
def DnsRecord.display (r : DnsRecord) : String :=
  "Record Type: " ++ r.rec_type ++ "\n" ++
  "Name: " ++ displayOptStr r.name ++ "\n" ++
  "Data: " ++ displayOptStr r.data ++ "\n" ++
  "Priority: " ++ displayOptNum r.priority ++ "\n" ++
  "Port: " ++ displayOptNum r.port ++ "\n" ++
  "Weight: " ++ displayOptNum r.weight ++ "\n"

/-- The response shapes (phantom `resp_t` parameters) that occur in
`src/request/builder/dns.rs`: `response::DnsRecord` (single item),
`response::DnsRecords` (collection), `response::HeaderOnly` (no parsed
body, used by `delete`). -/
inductive RespShape where
  | dnsRecord
  | dnsRecords
  | headerOnly
deriving DecidableEq

/-- `RequestBuilder<T>` with fields `method`, `auth`, `url`, `body`
(`resp_t : PhantomData<T>` is the type index `resp`). -/
structure RequestBuilder (resp : RespShape) where
  method : Method
  auth : String
  url : String
  body : Option Jobj
deriving DecidableEq

/-- `pub type DnsRecordRequest = RequestBuilder<response::DnsRecord>`
(line 101): the single-item-scope builder. -/
abbrev DnsRecordRequest := RequestBuilder RespShape.dnsRecord

/-- `pub type DnsRecordsRequest = RequestBuilder<response::DnsRecords>`
(line 167): the collection-scope builder. -/
abbrev DnsRecordsRequest := RequestBuilder RespShape.dnsRecords

/-- `create` (lines 135-153) with the call to the external serializer
`serde::json::to_string(record).ok()` abstracted as `ser`: the source writes
`body: Some(json::to_string(record).ok().unwrap())`, so a `None` serializer
result panics at the call (modelled as `none`); otherwise the new builder
has method POST, the same auth and url, and the serialized body. -/
def createWith (ser : DnsRecord → Option Jobj) (self : DnsRecordsRequest)
    (record : DnsRecord) : Option DnsRecordRequest :=
  match ser record with
  | some b => some { method := .Post, auth := self.auth, url := self.url, body := some b }
  | none => none

/-- `DnsRecordsRequest::create` (lines 135-153), declared in the impl block
`impl DnsRecordsRequest` at line 104, with the actual serializer. -/
def DnsRecordsRequest.create (self : DnsRecordsRequest) (record : DnsRecord) :
    Option DnsRecordRequest :=
  createWith json.to_string self record

/-- `update` (lines 200-217) with the serializer abstracted, exactly as
`createWith` but with method PUT. -/
def updateWith (ser : DnsRecord → Option Jobj) (self : DnsRecordsRequest)
    (record : DnsRecord) : Option DnsRecordRequest :=
  match ser record with
  | some b => some { method := .Put, auth := self.auth, url := self.url, body := some b }
  | none => none

/-- `DnsRecordsRequest::update` (lines 200-217), declared in the impl block
`impl DnsRecordsRequest` at line 169, with the actual serializer. -/
def DnsRecordsRequest.update (self : DnsRecordsRequest) (record : DnsRecord) :
    Option DnsRecordRequest :=
  updateWith json.to_string self record

/-- `DnsRecordsRequest::delete` (lines 236-245), declared in the impl block
`impl DnsRecordsRequest` at line 169: method DELETE, same auth and
url, `body: None`; no serialization, no fallible operation. -/
def DnsRecordsRequest.delete (self : DnsRecordsRequest) :
    RequestBuilder RespShape.headerOnly :=
  { method := .Delete, auth := self.auth, url := self.url, body := none }

/-- The response shape of the Self type of the impl block that declares
`create`: line 104 reads `impl DnsRecordsRequest`, i.e. the
collection-scope builder `RequestBuilder<response::DnsRecords>`. -/
def createImplShape : RespShape := .dnsRecords

/-- The response shape of the Self type of the impl block that declares
`update` and `delete`: line 169 reads `impl DnsRecordsRequest`,
i.e. again the collection-scope builder, not the single-item builder
`DnsRecordRequest` of line 101. -/
def updateDeleteImplShape : RespShape := .dnsRecords

/-- `Account` from `src/response/account.rs` lines 11-19. `droplet_limit`
is `f64` in the source (a JSON number, kept uncoerced); modelled as `ℚ`. -/
structure Account where
  droplet_limit : ℚ
  email : String
  uuid : String
  email_verified : Bool
deriving DecidableEq

/-- Rust float formatting with precision 0 (the format spec used for
`droplet_limit`): the value rounded to the nearest integer, ties to even,
rendered with no decimal point. Computed on the reduced fraction:
`fl = floor q`, and the fractional part `q - fl` is compared with `1/2`
by cross-multiplication. -/
def fmtDot0 (q : ℚ) : String :=
  let fl : Int := Int.fdiv q.num q.den
  let num2 : Int := 2 * (q.num - fl * q.den)
  let r : Int :=
    if num2 < (q.den : Int) then fl
    else if (q.den : Int) < num2 then fl + 1
    else if fl % 2 = 0 then fl else fl + 1
  toString r

/-- `impl fmt::Display for Account` (`src/response/account.rs` lines
21-33): the report `"DigitalOcean Account:"` followed by four tab-indented
lines, the droplet limit formatted with zero decimal places, the boolean
as `true`/`false`. -/
def Account.display (a : Account) : String :=
  "DigitalOcean Account:\n\t" ++
  "Email: " ++ a.email ++ "\n\t" ++
  "Droplet Limit: " ++ fmtDot0 a.droplet_limit ++ "\n\t" ++
  "UUID: " ++ a.uuid ++ "\n\t" ++
  "E-Mail Verified: " ++ (if a.email_verified then "true" else "false")

/-- The concrete record of the spec scenario: type A, name www,
data 1.2.3.4, the three numeric options absent. -/
def scenarioRecord : DnsRecord :=
  { rec_type := "A", name := some "www", priority := none, port := none,
    data := some "1.2.3.4", weight := none }

/-- The concrete account of the spec scenario. -/
def scenarioAccount : Account :=
  { droplet_limit := 25, email := "a@b.com", uuid := "abc-123",
    email_verified := true }

/-- C1: on a collection-scope builder, `create record` yields a builder with
method POST and body the JSON encoding of the record; `update record` yields
method PUT with the same body property; `delete` yields method DELETE with
no body. -/
theorem verb_methods_and_bodies (b : DnsRecordsRequest) (r : DnsRecord) :
    (∃ b1, b.create r = some b1 ∧ b1.method = .Post ∧ b1.body = some r.jsonEncode) ∧
    (∃ b2, b.update r = some b2 ∧ b2.method = .Put ∧ b2.body = some r.jsonEncode) ∧
    b.delete.method = .Delete ∧ b.delete.body = none :=
  ⟨⟨_, rfl, rfl, rfl⟩, ⟨_, rfl, rfl, rfl⟩, rfl, rfl⟩

/-- C2 (code bug): the impl block at line 169 of
`src/request/builder/dns.rs`, which declares `update` and `delete`, has Self
type `DnsRecordsRequest` — the collection-scope builder whose expected
response shape is `dnsRecords` — and not the single-item builder
`DnsRecordRequest` on which the doc examples in the same file invoke the two
methods. -/
theorem update_delete_declared_on_collection :
    updateDeleteImplShape = RespShape.dnsRecords ∧
    updateDeleteImplShape ≠ RespShape.dnsRecord :=
  ⟨rfl, by decide⟩

/-- C3: every verb transition copies `url` and `auth` from the input builder
to the resulting builder unchanged. -/
theorem verbs_preserve_url_and_auth (b : DnsRecordsRequest) (r : DnsRecord) :
    (∃ b1, b.create r = some b1 ∧ b1.url = b.url ∧ b1.auth = b.auth) ∧
    (∃ b2, b.update r = some b2 ∧ b2.url = b.url ∧ b2.auth = b.auth) ∧
    b.delete.url = b.url ∧ b.delete.auth = b.auth :=
  ⟨⟨_, rfl, rfl, rfl⟩, ⟨_, rfl, rfl, rfl⟩, rfl, rfl⟩

/-- C4: in `create` and `update` the serializer result is `unwrap`ped at the
verb-method call, so for any serializer outcome that is a failure the call
panics there (modelled: the `Option`-valued construction is `none`), rather
than producing a builder carrying an error for execution time. -/
theorem serialization_failure_panics (ser : DnsRecord → Option Jobj)
    (b : DnsRecordsRequest) (r : DnsRecord) (h : ser r = none) :
    createWith ser b r = none ∧ updateWith ser b r = none := by
  simp [createWith, updateWith, h]

/-- Witness for C4: a failing serializer makes both constructions panic on a
concrete builder and record. -/
theorem serialization_failure_panics_witness :
    createWith (fun _ => none)
      { method := .Get, auth := "token", url := "https://api.digitalocean.com/v2/domains/super.com/records", body := none }
      { rec_type := "A", name := none, priority := none, port := none, data := none, weight := none } = none ∧
    updateWith (fun _ => none)
      { method := .Get, auth := "token", url := "https://api.digitalocean.com/v2/domains/super.com/records", body := none }
      { rec_type := "A", name := none, priority := none, port := none, data := none, weight := none } = none :=
  serialization_failure_panics (fun _ => none) _ _ rfl

/-- C5: `create` on the scenario record produces a POST whose JSON body maps
`type` to `"A"`, `name` to `"www"`, `data` to `"1.2.3.4"`, and each of
`priority`, `port`, `weight` to JSON null. -/
theorem create_scenario_body (b : DnsRecordsRequest) :
    ∃ b1, b.create scenarioRecord = some b1 ∧ b1.method = .Post ∧
      ∃ o, b1.body = some o ∧
        o.lookup "type" = some (Json.str "A") ∧
        o.lookup "name" = some (Json.str "www") ∧
        o.lookup "data" = some (Json.str "1.2.3.4") ∧
        o.lookup "priority" = some Json.null ∧
        o.lookup "port" = some Json.null ∧
        o.lookup "weight" = some Json.null :=
  ⟨_, rfl, rfl, _, rfl, rfl, rfl, rfl, rfl, rfl, rfl⟩

/-- C6: the display form of a `DnsRecord` is the six-line text in the order
type, name, data, priority, port, weight, where an absent optional renders
as the literal `"None"` and a present one as its value; evaluated at the
all-absent record. -/
theorem dnsrecord_display_format (r : DnsRecord) :
    r.display =
      "Record Type: " ++ r.rec_type ++ "\n" ++
      "Name: " ++ displayOptStr r.name ++ "\n" ++
      "Data: " ++ displayOptStr r.data ++ "\n" ++
      "Priority: " ++ displayOptNum r.priority ++ "\n" ++
      "Port: " ++ displayOptNum r.port ++ "\n" ++
      "Weight: " ++ displayOptNum r.weight ++ "\n" ∧
    displayOptStr none = "None" ∧ displayOptNum none = "None" ∧
    (∀ s, displayOptStr (some s) = s) ∧
    (∀ n, displayOptNum (some n) = toString n) ∧
    DnsRecord.display
      { rec_type := "A", name := none, priority := none, port := none, data := none, weight := none } =
      "Record Type: A\nName: None\nData: None\nPriority: None\nPort: None\nWeight: None\n" :=
  ⟨rfl, rfl, rfl, fun _ => rfl, fun _ => rfl, rfl⟩

/-- C7: every variant of `DnsRecType` displays as exactly its uppercase tag
name. -/
theorem rectype_display_is_uppercase_tag :
    DnsRecType.display .A = "A" ∧ DnsRecType.display .AAAA = "AAAA" ∧
    DnsRecType.display .CNAME = "CNAME" ∧ DnsRecType.display .MX = "MX" ∧
    DnsRecType.display .NS = "NS" ∧ DnsRecType.display .SRV = "SRV" ∧
    DnsRecType.display .TXT = "TXT" :=
  ⟨rfl, rfl, rfl, rfl, rfl, rfl, rfl⟩

/-- C8: the scenario account displays as the fixed report whose droplet
limit line renders `25.0` with zero decimal places as `25`. -/
theorem account_display_scenario :
    scenarioAccount.display =
      "DigitalOcean Account:\n\tEmail: a@b.com\n\tDroplet Limit: 25\n\tUUID: abc-123\n\tE-Mail Verified: true" := by
  decide

/-- C9: `delete` is a total function of the input builder alone: it
unconditionally yields the builder with method DELETE, the same auth and
url, and `body = none` — no serialization is involved, so no panic branch
exists (in the embedding its result type is a builder, not an `Option`). -/
theorem delete_total_and_bodyless (b : DnsRecordsRequest) :
    b.delete = { method := .Delete, auth := b.auth, url := b.url, body := none } :=
  rfl

/-- C10: the display form of `DnsRecord` is not injective: a record whose
`name` is the string `"None"` and the otherwise-identical record whose
`name` is absent render to the same text. -/
theorem dnsrecord_display_not_injective :
    ∃ r1 r2 : DnsRecord, r1 ≠ r2 ∧ r1.display = r2.display :=
  ⟨{ rec_type := "A", name := some "None", priority := none, port := none, data := none, weight := none },
   { rec_type := "A", name := none, priority := none, port := none, data := none, weight := none },
   by decide, rfl⟩

end Doapi
